import Mathlib

/-
Verification development for the netbox-containerlab repository
(clab_generator.py and cleanup.py).  The Python source is shallowly
embedded: Python strings become Lean String (with hand-rolled, kernel-
reducible primitives over the underlying character lists modelling the
Python string operations used by the code), the process-wide mutable
failure set and the filesystem become an explicit state record, and
network/subprocess interactions become oracle arguments of type Except.
-/

/- ### Primitives modelling the Python string operations used by the code -/

/-- Python str.lower (ASCII model, matching Char.toLower). -/
def lowerChars (s : List Char) : List Char := s.map Char.toLower

/-- Python s.lower() on a String. -/
def pyLower (s : String) : String := String.mk (lowerChars s.data)

/-- Python s.startswith(p). -/
def strStartsWith (s p : String) : Bool := List.isPrefixOf p.data s.data

/-- Substring test on character lists (Python "pat in s"). -/
def isInfixL (pat : List Char) : List Char → Bool
  | [] => pat.isEmpty
  | c :: cs => List.isPrefixOf pat (c :: cs) || isInfixL pat cs

/-- Python "pat in s" on Strings. -/
def containsSub (s pat : String) : Bool := isInfixL pat.data s.data

/-- Python s.split(sep) for a single-character separator. -/
def splitOnChar (sep : Char) : List Char → List (List Char)
  | [] => [[]]
  | c :: cs =>
    let r := splitOnChar sep cs
    if c = sep then [] :: r
    else
      match r with
      | [] => [[c]]
      | p :: ps => (c :: p) :: ps

/-- The whitespace characters stripped by Python str.strip(). -/
def isSpaceChar (c : Char) : Bool :=
  c = ' ' || c = '\t' || c = '\n' || c = '\r' || c = '\x0b' || c = '\x0c'

/-- Python s.strip(). -/
def stripChars (s : List Char) : List Char :=
  ((s.dropWhile isSpaceChar).reverse.dropWhile isSpaceChar).reverse

/-- Python s.replace(pat, rep), fuel-indexed so that it is structural
(the fuel is an upper bound on the number of characters consumed;
replaceAll supplies the length of the string, which always suffices). -/
def replaceFuel (pat rep : List Char) : Nat → List Char → List Char
  | 0, s => s
  | _ + 1, [] => []
  | fuel + 1, c :: cs =>
    if !pat.isEmpty && List.isPrefixOf pat (c :: cs) then
      rep ++ replaceFuel pat rep fuel (List.drop pat.length (c :: cs))
    else
      c :: replaceFuel pat rep fuel cs

/-- Python s.replace(pat, rep) on character lists. -/
def replaceAll (pat rep s : List Char) : List Char := replaceFuel pat rep s.length s

/-- Python s.replace(pat, rep) on Strings. -/
def pyReplace (s pat rep : String) : String := String.mk (replaceAll pat.data rep.data s.data)

/-- Lexicographic order on character lists by code point (Python string <=). -/
def charListLe : List Char → List Char → Bool
  | [], _ => true
  | _ :: _, [] => false
  | a :: as, b :: bs => if a = b then charListLe as bs else decide (a < b)

/-- Python tuple(sorted((a, b))) for two strings. -/
def sortPair (a b : String) : String × String :=
  if charListLe a.data b.data then (a, b) else (b, a)

/-- Python s.endswith(p). -/
def strEndsWith (s p : String) : Bool := List.isPrefixOf p.data.reverse s.data.reverse

/-- Python os.path.join(a, b) (posix semantics, two arguments). -/
def osPathJoin (a b : String) : String :=
  if strStartsWith b "/" then b
  else if a = "" || strEndsWith a "/" then a ++ b
  else a ++ "/" ++ b

/- ### Data model (clab_generator.py) -/

/-- A NetBox device record as used by the script: its name and its
optional primary management IP (device.primary_ip). -/
structure Device where
  name : String
  primary_ip : Option String
deriving DecidableEq

/-- One LLDP neighbor record: the dict {hostname, port} produced by
napalm get_lldp_neighbors. -/
structure NeighborInfo where
  hostname : String
  port : String
deriving DecidableEq

/-- A device's LLDP data: local interface name to neighbor records
(the per-device dict returned by get_lldp_neighbors). -/
abbrev NeighborsDict := List (String × List NeighborInfo)

/-- The raw neighbor report: local device name to its LLDP data
(the all_links dict built in main). -/
abbrev LinksData := List (String × NeighborsDict)

/-- Process state threaded through the polling stages: the global
unreachable_devices set (modelled as a list with idempotent insert) and
the files written so far (path, content). -/
structure PollState where
  unreachable : List String
  files : List (String × String)
deriving DecidableEq

/-- Python unreachable_devices.add(name): idempotent set insert. -/
def addUnreachable (name : String) (s : List String) : List String :=
  if name ∈ s then s else name :: s

/- ### Polling operations (clab_generator.py lines 67-178) -/

/-- test_device_connectivity (lines 67-88): a device without a primary
IP is marked unreachable without an attempt; otherwise a session
open/close is attempted (the connOracle), and any error marks the
device unreachable.  Returns the classification and the new set. -/
def test_device_connectivity (device : Device) (connOracle : Except Unit Unit)
    (unreachable : List String) : Bool × List String :=
  match device.primary_ip with
  | none => (false, addUnreachable device.name unreachable)
  | some _ =>
    match connOracle with
    | .ok _ => (true, unreachable)
    | .error _ => (false, addUnreachable device.name unreachable)

/-- get_device_config (lines 90-108): skip devices already in the
failure set; a device with no primary IP raises before the try block
(neither writes nor marks); otherwise the fetch oracle either yields
the running config (written to configs_dir/name.cfg) or fails, marking
the device unreachable. -/
def get_device_config (device : Device) (fetchConfig : Except Unit String)
    (configs_dir : String) (st : PollState) : PollState :=
  if device.name ∈ st.unreachable then st
  else
    match device.primary_ip with
    | none => st
    | some _ =>
      match fetchConfig with
      | .ok config_data =>
        { st with files := (osPathJoin configs_dir (device.name ++ ".cfg"), config_data) :: st.files }
      | .error _ =>
        { st with unreachable := addUnreachable device.name st.unreachable }

/-- Case-insensitive label match re.search(r'serial number', line, re.IGNORECASE). -/
def serialLabel (line : List Char) : Bool := isInfixL "serial number".data (lowerChars line)

/-- Case-insensitive label match re.search(r'system mac address', line, re.IGNORECASE). -/
def macLabel (line : List Char) : Bool := isInfixL "system mac address".data (lowerChars line)

/-- line.split(':')[1].strip(): the field between the first and second
colon, stripped; none when the line has fewer than two fields
(Python raises IndexError there). -/
def extractField (line : List Char) : Option (List Char) :=
  match splitOnChar ':' line with
  | _ :: v :: _ => some (stripChars v)
  | _ => none

/-- One iteration of the line loop in get_device_info (lines 121-123):
a matching label updates the corresponding value; a matching line with
no second colon-field raises (modelled as error). -/
def versionStep (acc : Except Unit (List Char × List Char)) (line : List Char) :
    Except Unit (List Char × List Char) :=
  match acc with
  | .error e => .error e
  | .ok (sn, mac) =>
    match (if serialLabel line then
             match extractField line with
             | some v => Except.ok v
             | none => Except.error ()
           else Except.ok sn) with
    | .error e => .error e
    | .ok sn' =>
      match (if macLabel line then
               match extractField line with
               | some v => Except.ok v
               | none => Except.error ()
             else Except.ok mac) with
      | .error e => .error e
      | .ok mac' => .ok (sn', mac')

/-- Python str.splitlines, modelled as splitting on newline and
dropping the trailing empty segment a final newline would produce. -/
def pySplitLines (s : String) : List (List Char) :=
  let parts := splitOnChar '\n' s.data
  match parts.getLast? with
  | some [] => parts.dropLast
  | _ => parts

/-- The parsing loop of get_device_info over the 'show version' output
(lines 120-123), starting from ("UNKNOWN", "UNKNOWN"). -/
def parse_show_version (version_output : String) : Except Unit (List Char × List Char) :=
  (pySplitLines version_output).foldl versionStep (.ok ("UNKNOWN".data, "UNKNOWN".data))

/-- get_device_info (lines 110-133): skip devices in the failure set;
fetch 'show version' (oracle), parse it, and write the two key=value
lines to sn_dir/name.txt; any failure marks the device unreachable. -/
def get_device_info (device : Device) (fetchVersion : Except Unit String)
    (sn_dir : String) (st : PollState) : PollState :=
  if device.name ∈ st.unreachable then st
  else
    match device.primary_ip with
    | none => st
    | some _ =>
      match fetchVersion with
      | .error _ =>
        { st with unreachable := addUnreachable device.name st.unreachable }
      | .ok version_output =>
        match parse_show_version version_output with
        | .error _ =>
          { st with unreachable := addUnreachable device.name st.unreachable }
        | .ok (serial_number, system_mac) =>
          let sn_content :=
            "SERIALNUMBER=" ++ String.mk serial_number ++ "\nSYSTEMMACADDR=" ++ String.mk system_mac ++ "\n"
          { st with files := (osPathJoin sn_dir (device.name ++ ".txt"), sn_content) :: st.files }

/-- get_lldp_neighbors_napalm (lines 162-178): skip devices in the
failure set (returning none); otherwise the fetch oracle either yields
the LLDP data or fails, marking the device unreachable and returning
none.  Returns the result and the new failure set. -/
def get_lldp_neighbors_napalm (device_name : String) (fetchLldp : Except Unit NeighborsDict)
    (unreachable : List String) : Option NeighborsDict × List String :=
  if device_name ∈ unreachable then (none, unreachable)
  else
    match fetchLldp with
    | .ok lldp_neighbors => (some lldp_neighbors, unreachable)
    | .error _ => (none, addUnreachable device_name unreachable)

/- ### Topology synthesis (clab_generator.py lines 180-227) -/

/-- map_interface (lines 180-184). -/
def map_interface (node_template : String) (interface_name : String) : String :=
  if containsSub node_template "ceos" && strStartsWith interface_name "Ethernet" then
    pyReplace (pyReplace interface_name "Ethernet" "eth") "/" "_"
  else interface_name

/-- The node template tag fixed at line 195. -/
def node_template_name : String := "ceos-template"

/-- The canonical-name resolution at line 206: first member of the
canonical set matching the LLDP hint by case-insensitive prefix in
either direction. -/
def resolveMatch (neighbor_name_from_lldp name : String) : Bool :=
  strStartsWith (pyLower neighbor_name_from_lldp) (pyLower name)
    || strStartsWith (pyLower name) (pyLower neighbor_name_from_lldp)

/-- The next(...) expression at line 206. -/
def resolveCanonical (netbox_device_names : List String) (neighbor_name_from_lldp : String) :
    Option String :=
  netbox_device_names.find? (resolveMatch neighbor_name_from_lldp)

/-- A synthesized link, kept with its structured endpoint components;
the code stores only the rendered endpoint strings (see endpoints). -/
structure LinkEntry where
  localDev : String
  localIf : String
  nbrDev : String
  nbrIf : String
deriving DecidableEq

/-- The first rendered endpoint string of a link entry. -/
def endpointA (e : LinkEntry) : String := e.localDev ++ ":" ++ e.localIf

/-- The second rendered endpoint string of a link entry. -/
def endpointB (e : LinkEntry) : String := e.nbrDev ++ ":" ++ e.nbrIf

/-- The 'endpoints' list stored in each final_links entry (line 213). -/
def endpoints (e : LinkEntry) : List String := [endpointA e, endpointB e]

/-- The dedup key of a link entry (line 211). -/
def keyOf (e : LinkEntry) : String × String := sortPair (endpointA e) (endpointB e)

/-- The body of the innermost loop of generate_topology_file
(lines 203-214) for one neighbor record, acting on the accumulator
(processed_links, final_links). -/
def processNeighbor (netbox_device_names unreachable : List String)
    (local_device local_interface : String)
    (acc : List (String × String) × List LinkEntry) (neighbor_info : NeighborInfo) :
    List (String × String) × List LinkEntry :=
  match resolveCanonical netbox_device_names neighbor_info.hostname with
  | none => acc
  | some canonical_neighbor_name =>
    if canonical_neighbor_name ∈ unreachable then acc
    else
      let mapped_local_int := map_interface node_template_name local_interface
      let mapped_neighbor_int := map_interface node_template_name neighbor_info.port
      if !containsSub mapped_local_int "eth" || !containsSub mapped_neighbor_int "eth" then acc
      else
        let link_tuple := sortPair (local_device ++ ":" ++ mapped_local_int)
          (canonical_neighbor_name ++ ":" ++ mapped_neighbor_int)
        if link_tuple ∈ acc.1 then acc
        else (link_tuple :: acc.1,
          acc.2 ++ [⟨local_device, mapped_local_int, canonical_neighbor_name, mapped_neighbor_int⟩])

/-- The loop over one local interface's neighbor list (line 203). -/
def processInterface (netbox_device_names unreachable : List String) (local_device : String)
    (acc : List (String × String) × List LinkEntry) (q : String × List NeighborInfo) :
    List (String × String) × List LinkEntry :=
  q.2.foldl (processNeighbor netbox_device_names unreachable local_device q.1) acc

/-- The loop over one local device's interfaces (lines 200-202),
skipping unreachable local devices. -/
def processDevice (netbox_device_names unreachable : List String)
    (acc : List (String × String) × List LinkEntry)
    (p : String × NeighborsDict) : List (String × String) × List LinkEntry :=
  if p.1 ∈ unreachable then acc
  else p.2.foldl (processInterface netbox_device_names unreachable p.1) acc

/-- The full link-construction loop of generate_topology_file
(lines 197-214), returning (processed_links, final_links). -/
def synthesize (netbox_device_names unreachable : List String) (links_data : LinksData) :
    List (String × String) × List LinkEntry :=
  links_data.foldl (processDevice netbox_device_names unreachable) ([], [])

/-- The link list built by generate_topology_file (lines 192-214):
the canonical set is the reachable devices' names, and final_links is
the second accumulator component. -/
def generate_links (devices : List Device) (unreachable : List String) (links_data : LinksData) :
    List LinkEntry :=
  (synthesize ((devices.filter (fun d => !unreachable.contains d.name)).map Device.name)
    unreachable links_data).2

/-- Equality of two link entries' endpoint pairs as unordered sets of
rendered endpoint strings. -/
def sameLinkB (e1 e2 : LinkEntry) : Bool :=
  (decide (endpointA e1 = endpointA e2) && decide (endpointB e1 = endpointB e2))
    || (decide (endpointA e1 = endpointB e2) && decide (endpointB e1 = endpointA e2))

/- ### Output paths (clab_generator.py lines 220-221, 289; cleanup.py lines 49-50) -/

/-- The topology file path the generator writes: main sets
lab_dir = site_name.lower() (line 289) and generate_topology_file joins
it with site_name.lower() + ".clab.yml" (lines 220-221). -/
def generator_topology_filepath (site_name : String) : String :=
  let lab_dir := pyLower site_name
  let topology_filename := pyLower site_name ++ ".clab.yml"
  osPathJoin lab_dir topology_filename

/-- The topology file path cleanup.main computes before destroying
(cleanup.py lines 49-50). -/
def cleanup_topology_file (site_name : String) : String :=
  let lab_dir := pyLower site_name
  osPathJoin lab_dir (lab_dir ++ ".clab.yml")

/- ### External tool invocation (clab_generator.py 229-259, cleanup.py 6-28) -/

/-- Outcome of one subprocess.run of the external tool: success, the
binary being absent (FileNotFoundError), or a non-zero exit status
(CalledProcessError). -/
inductive ToolOutcome where
  | success
  | fileNotFound
  | calledProcessError (code : Nat)
deriving DecidableEq

/-- The distinct fatal tooling conditions deploy re-raises. -/
inductive ToolingError where
  | toolingMissing
  | toolingFailed (code : Nat)
deriving DecidableEq

/-- deploy_containerlab (lines 229-259): runs deploy then inspect
inside one try; FileNotFoundError and CalledProcessError are reported
with distinct messages and re-raised, so they surface as errors. -/
def deploy_containerlab (deployRun inspectRun : ToolOutcome) : Except ToolingError Unit :=
  match deployRun with
  | .fileNotFound => .error .toolingMissing
  | .calledProcessError c => .error (.toolingFailed c)
  | .success =>
    match inspectRun with
    | .fileNotFound => .error .toolingMissing
    | .calledProcessError c => .error (.toolingFailed c)
    | .success => .ok ()

/-- What destroy_containerlab reports on each path. -/
inductive DestroyReport where
  | skippedMissingFile
  | destroyed
  | reportedMissingTool
  | reportedToolFailed (code : Nat)
deriving DecidableEq

/-- destroy_containerlab (cleanup.py lines 6-28): a missing topology
file is skipped; FileNotFoundError and CalledProcessError from the
tool are caught, reported with distinct messages, and swallowed — the
function always returns normally (never an error). -/
def destroy_containerlab (topology_file_exists : Bool) (run : ToolOutcome) :
    Except ToolingError DestroyReport :=
  if !topology_file_exists then .ok .skippedMissingFile
  else
    match run with
    | .success => .ok .destroyed
    | .fileNotFound => .ok .reportedMissingTool
    | .calledProcessError c => .ok (.reportedToolFailed c)

/-- Modelled from the spec: the extraction rule as the spec words it,
"value = the entire text after the first separator on the line,
trimmed" (spec section 4.3); compared against extractField, which the
code actually computes. -/
def spec_extract_after_first_sep (line : List Char) : Option (List Char) :=
  match splitOnChar ':' line with
  | _ :: rest =>
    match rest with
    | [] => none
    | _ :: _ => some (stripChars (String.intercalate ":" (rest.map String.mk)).data)
  | [] => none

/- ### Helper lemmas -/

theorem strEqOfData {a b : String} (h : a.data = b.data) : a = b :=
  congrArg String.mk h

theorem charListLe_total (a b : List Char) : charListLe a b = true ∨ charListLe b a = true := by
  induction a generalizing b with
  | nil => left; rfl
  | cons x xs ih =>
    cases b with
    | nil => right; rfl
    | cons y ys =>
      by_cases h : x = y
      · subst h
        simpa [charListLe] using ih ys
      · rcases lt_trichotomy x y with hlt | heq | hgt
        · left; simp [charListLe, h, hlt]
        · exact absurd heq h
        · right; simp [charListLe, Ne.symm h, hgt]

theorem charListLe_antisymm (a b : List Char) (h1 : charListLe a b = true)
    (h2 : charListLe b a = true) : a = b := by
  induction a generalizing b with
  | nil =>
    cases b with
    | nil => rfl
    | cons y ys => simp [charListLe] at h2
  | cons x xs ih =>
    cases b with
    | nil => simp [charListLe] at h1
    | cons y ys =>
      by_cases h : x = y
      · subst h
        simp only [charListLe, if_pos rfl] at h1 h2
        rw [ih ys h1 h2]
      · simp [charListLe, h, Ne.symm h] at h1 h2
        exact absurd h2 (not_lt_of_gt h1)

theorem sortPair_comm (a b : String) : sortPair a b = sortPair b a := by
  unfold sortPair
  by_cases h1 : charListLe a.data b.data = true
  · by_cases h2 : charListLe b.data a.data = true
    · have := strEqOfData (charListLe_antisymm _ _ h1 h2)
      subst this; rfl
    · simp [h1, h2]
  · have h2 : charListLe b.data a.data = true := by
      rcases charListLe_total a.data b.data with h | h
      · exact absurd h h1
      · exact h
    simp [h1, h2]

theorem mem_addUnreachable {x : String} (n : String) {s : List String} (h : x ∈ s) :
    x ∈ addUnreachable n s := by
  unfold addUnreachable
  split
  · exact h
  · exact List.mem_cons_of_mem _ h

theorem foldlPreserve {α β : Type} (P : β → Prop) (f : β → α → β)
    (h : ∀ b a, P b → P (f b a)) :
    ∀ (l : List α) (b : β), P b → P (l.foldl f b) := by
  intro l
  induction l with
  | nil => intro b hb; simpa using hb
  | cons x xs ih => intro b hb; simpa using ih (f b x) (h b x hb)

/-- The invariant carried through the synthesis loop: every recorded
link's key is in processed_links, keys are pairwise distinct, no
endpoint device is unreachable, and both normalized interface names
contain the marker. -/
def LinksInv (unreachable : List String) (acc : List (String × String) × List LinkEntry) : Prop :=
  (∀ e ∈ acc.2, keyOf e ∈ acc.1)
  ∧ acc.2.Pairwise (fun e1 e2 => keyOf e1 ≠ keyOf e2)
  ∧ (∀ e ∈ acc.2, e.localDev ∉ unreachable ∧ e.nbrDev ∉ unreachable)
  ∧ (∀ e ∈ acc.2, containsSub e.localIf "eth" = true ∧ containsSub e.nbrIf "eth" = true)

theorem processNeighbor_inv (names unreachable : List String) (l li : String)
    (ni : NeighborInfo) (hl : l ∉ unreachable) (acc : List (String × String) × List LinkEntry)
    (h : LinksInv unreachable acc) :
    LinksInv unreachable (processNeighbor names unreachable l li acc ni) := by
  obtain ⟨h1, h2, h3, h4⟩ := h
  unfold processNeighbor
  cases hr : resolveCanonical names ni.hostname with
  | none => exact ⟨h1, h2, h3, h4⟩
  | some c =>
    by_cases hc : c ∈ unreachable
    · simp only [if_pos hc]; exact ⟨h1, h2, h3, h4⟩
    · simp only [if_neg hc]
      cases hf : (!containsSub (map_interface node_template_name li) "eth"
          || !containsSub (map_interface node_template_name ni.port) "eth") with
      | true => simp only [hf, if_pos rfl]; exact ⟨h1, h2, h3, h4⟩
      | false =>
        simp only [hf, Bool.false_eq_true, if_false]
        have heth : containsSub (map_interface node_template_name li) "eth" = true
            ∧ containsSub (map_interface node_template_name ni.port) "eth" = true := by
          simpa using hf
        by_cases hk : sortPair (l ++ ":" ++ map_interface node_template_name li)
            (c ++ ":" ++ map_interface node_template_name ni.port) ∈ acc.1
        · simp only [if_pos hk]; exact ⟨h1, h2, h3, h4⟩
        · simp only [if_neg hk]
          refine ⟨?_, ?_, ?_, ?_⟩
          · intro e he
            rcases List.mem_append.mp he with he' | he'
            · exact List.mem_cons_of_mem _ (h1 e he')
            · rcases List.mem_singleton.mp he' with rfl
              exact List.mem_cons_self _ _
          · refine List.pairwise_append.mpr ⟨h2, List.pairwise_singleton _ _, ?_⟩
            intro a ha b hb
            rcases List.mem_singleton.mp hb with rfl
            intro hkey
            have hmem : keyOf (⟨l, map_interface node_template_name li, c,
                map_interface node_template_name ni.port⟩ : LinkEntry) ∈ acc.1 :=
              hkey ▸ h1 a ha
            exact hk hmem
          · intro e he
            rcases List.mem_append.mp he with he' | he'
            · exact h3 e he'
            · rcases List.mem_singleton.mp he' with rfl
              exact ⟨hl, hc⟩
          · intro e he
            rcases List.mem_append.mp he with he' | he'
            · exact h4 e he'
            · rcases List.mem_singleton.mp he' with rfl
              exact heth

theorem processInterface_inv (names unreachable : List String) (l : String) (hl : l ∉ unreachable)
    (acc : List (String × String) × List LinkEntry) (q : String × List NeighborInfo)
    (h : LinksInv unreachable acc) :
    LinksInv unreachable (processInterface names unreachable l acc q) :=
  foldlPreserve (LinksInv unreachable) _
    (fun b a hb => processNeighbor_inv names unreachable l q.1 a hl b hb) q.2 acc h

theorem processDevice_inv (names unreachable : List String)
    (acc : List (String × String) × List LinkEntry) (p : String × NeighborsDict)
    (h : LinksInv unreachable acc) :
    LinksInv unreachable (processDevice names unreachable acc p) := by
  unfold processDevice
  by_cases hp : p.1 ∈ unreachable
  · simp only [if_pos hp]; exact h
  · simp only [if_neg hp]
    exact foldlPreserve (LinksInv unreachable) _
      (fun b a hb => processInterface_inv names unreachable p.1 hp b a hb) p.2 acc h

theorem synthesize_inv (names unreachable : List String) (links_data : LinksData) :
    LinksInv unreachable (synthesize names unreachable links_data) :=
  foldlPreserve (LinksInv unreachable) _
    (fun b a hb => processDevice_inv names unreachable b a hb) links_data ([], [])
    ⟨by simp, by simp, by simp, by simp⟩

theorem sameLinkB_refl (e : LinkEntry) : sameLinkB e e = true := by
  simp [sameLinkB]

theorem sameLinkB_key {e1 e2 : LinkEntry} (h : sameLinkB e1 e2 = true) : keyOf e1 = keyOf e2 := by
  simp only [sameLinkB, Bool.or_eq_true, Bool.and_eq_true, decide_eq_true_eq] at h
  rcases h with ⟨ha, hb⟩ | ⟨ha, hb⟩
  · unfold keyOf; rw [ha, hb]
  · unfold keyOf; rw [ha, hb]; exact sortPair_comm _ _

theorem countP_sameLink (L : List LinkEntry)
    (hP : L.Pairwise (fun e1 e2 => keyOf e1 ≠ keyOf e2)) :
    ∀ e ∈ L, L.countP (fun x => sameLinkB e x) = 1 := by
  induction L with
  | nil => intro e he; simp at he
  | cons a t ih =>
    rw [List.pairwise_cons] at hP
    obtain ⟨ha, ht⟩ := hP
    intro e he
    rcases List.mem_cons.mp he with rfl | het
    · rw [List.countP_cons_of_pos _ _ (sameLinkB_refl e)]
      have hz : t.countP (fun x => sameLinkB e x) = 0 := by
        rw [List.countP_eq_zero]
        intro x hx hsx
        exact ha x hx (sameLinkB_key hsx)
      rw [hz]
    · have hne : ¬ (sameLinkB e a = true) := fun hx => ha e het (sameLinkB_key hx).symm
      rw [List.countP_cons_of_neg _ _ hne]
      exact ih ht e het

/-- C1: for every device set, failure set and raw neighbor report, the
link list produced by topology synthesis contains no two entries whose
endpoint pairs are equal as unordered sets; each link present appears
exactly once (so symmetric LLDP records of one physical link yield a
single entry). -/
theorem generate_links_dedup (devices : List Device) (unreachable : List String)
    (links_data : LinksData) (e : LinkEntry)
    (he : e ∈ generate_links devices unreachable links_data) :
    (generate_links devices unreachable links_data).countP (fun x => sameLinkB e x) = 1 := by
  unfold generate_links at he ⊢
  exact countP_sameLink _ (synthesize_inv _ unreachable links_data).2.1 e he

/-- Witness for generate_links_dedup: the symmetric two-device report
yields exactly one entry for the A-B link. -/
theorem generate_links_dedup_witness :
    (generate_links [⟨"A", none⟩, ⟨"B", none⟩] []
      [("A", [("Ethernet2", [⟨"B", "Ethernet1"⟩])]),
       ("B", [("Ethernet1", [⟨"A", "Ethernet2"⟩])])]).countP
      (fun x => sameLinkB ⟨"A", "eth2", "B", "eth1"⟩ x) = 1 :=
  generate_links_dedup _ _ _ ⟨"A", "eth2", "B", "eth1"⟩ (by decide)

/-- C2: once a device identifier is in the failure set, config
harvesting and identity harvesting write nothing for it, neighbor
collection returns nothing for it, synthesis emits no link with it as
an endpoint, and no modelled operation ever removes an identifier from
the failure set. -/
theorem sticky_failure (d : String) (dev dev2 : Device)
    (cfgO infoO : Except Unit String) (lldpO : Except Unit NeighborsDict)
    (connO : Except Unit Unit) (cdir sdir : String) (st : PollState)
    (devices : List Device) (links_data : LinksData)
    (hd : d ∈ st.unreachable) (hname : dev.name = d) :
    get_device_config dev cfgO cdir st = st
    ∧ get_device_info dev infoO sdir st = st
    ∧ (get_lldp_neighbors_napalm d lldpO st.unreachable).1 = none
    ∧ (∀ e ∈ generate_links devices st.unreachable links_data, e.localDev ≠ d ∧ e.nbrDev ≠ d)
    ∧ d ∈ (test_device_connectivity dev2 connO st.unreachable).2
    ∧ d ∈ (get_device_config dev2 cfgO cdir st).unreachable
    ∧ d ∈ (get_device_info dev2 infoO sdir st).unreachable
    ∧ d ∈ (get_lldp_neighbors_napalm dev2.name lldpO st.unreachable).2 := by
  refine ⟨?_, ?_, ?_, ?_, ?_, ?_, ?_, ?_⟩
  · unfold get_device_config
    rw [hname, if_pos hd]
  · unfold get_device_info
    rw [hname, if_pos hd]
  · unfold get_lldp_neighbors_napalm
    rw [if_pos hd]
  · intro e he
    unfold generate_links at he
    have h3 := (synthesize_inv _ st.unreachable links_data).2.2.1 e he
    exact ⟨fun heq => (heq ▸ h3.1) hd, fun heq => (heq ▸ h3.2) hd⟩
  · unfold test_device_connectivity
    split
    · exact mem_addUnreachable _ hd
    · split
      · exact hd
      · exact mem_addUnreachable _ hd
  · unfold get_device_config
    split
    · exact hd
    · split
      · exact hd
      · split
        · exact hd
        · exact mem_addUnreachable _ hd
  · unfold get_device_info
    split
    · exact hd
    · split
      · exact hd
      · split
        · exact mem_addUnreachable _ hd
        · split
          · exact mem_addUnreachable _ hd
          · exact hd
  · unfold get_lldp_neighbors_napalm
    split
    · exact hd
    · split
      · exact hd
      · exact mem_addUnreachable _ hd

/-- Witness for sticky_failure at a concrete run state. -/
theorem sticky_failure_witness :
    get_device_config ⟨"x", some "10.0.0.1"⟩ (.ok "cfg") "c" ⟨["x"], []⟩ = ⟨["x"], []⟩
    ∧ get_device_info ⟨"x", some "10.0.0.1"⟩ (.ok "v") "s" ⟨["x"], []⟩ = ⟨["x"], []⟩
    ∧ (get_lldp_neighbors_napalm "x" (.ok []) (PollState.mk ["x"] []).unreachable).1 = none
    ∧ (∀ e ∈ generate_links [⟨"x", none⟩, ⟨"z", none⟩] (PollState.mk ["x"] []).unreachable
        [("x", [("Ethernet1", [⟨"z", "Ethernet1"⟩])])], e.localDev ≠ "x" ∧ e.nbrDev ≠ "x")
    ∧ "x" ∈ (test_device_connectivity ⟨"y", none⟩ (.ok ()) (PollState.mk ["x"] []).unreachable).2
    ∧ "x" ∈ (get_device_config ⟨"y", none⟩ (.ok "cfg") "c" ⟨["x"], []⟩).unreachable
    ∧ "x" ∈ (get_device_info ⟨"y", none⟩ (.ok "v") "s" ⟨["x"], []⟩).unreachable
    ∧ "x" ∈ (get_lldp_neighbors_napalm (Device.mk "y" none).name (.ok [])
        (PollState.mk ["x"] []).unreachable).2 :=
  sticky_failure "x" ⟨"x", some "10.0.0.1"⟩ ⟨"y", none⟩ (.ok "cfg") (.ok "v") (.ok [])
    (.ok ()) "c" "s" ⟨["x"], []⟩ [⟨"x", none⟩, ⟨"z", none⟩]
    [("x", [("Ethernet1", [⟨"z", "Ethernet1"⟩])])] (by decide) rfl

/-- C4: a peer name hint resolves exactly when the canonical set has a
member matching it by case-insensitive prefix in either direction; the
resolved name is such a member; no match, or a match in the failure
set, silently discards the record; and "leaf01.mgmt.example.com"
resolves to "leaf01" against the canonical set ["leaf01"]. -/
theorem peer_name_resolution (names unreachable : List String) (hint l li : String)
    (ni : NeighborInfo) (acc : List (String × String) × List LinkEntry) :
    ((resolveCanonical names hint).isSome ↔ ∃ C ∈ names, resolveMatch hint C = true)
    ∧ (∀ C, resolveCanonical names hint = some C → C ∈ names ∧ resolveMatch hint C = true)
    ∧ (resolveCanonical names ni.hostname = none →
        processNeighbor names unreachable l li acc ni = acc)
    ∧ (∀ C, resolveCanonical names ni.hostname = some C → C ∈ unreachable →
        processNeighbor names unreachable l li acc ni = acc)
    ∧ resolveCanonical ["leaf01"] "leaf01.mgmt.example.com" = some "leaf01" := by
  refine ⟨?_, ?_, ?_, ?_, by decide⟩
  · unfold resolveCanonical
    simp [List.find?_isSome]
  · intro C hC
    exact ⟨List.mem_of_find?_eq_some hC, List.find?_some hC⟩
  · intro hnone
    unfold processNeighbor
    rw [hnone]
  · intro C hC hCu
    unfold processNeighbor
    rw [hC]
    exact if_pos hCu

/-- Witness for peer_name_resolution: the no-match scenario discards
the record without touching the accumulator. -/
theorem peer_name_resolution_witness :
    processNeighbor ["leaf01"] [] "leaf01" "Ethernet1" ([], [])
      ⟨"upstream-isp-router", "Ethernet9"⟩ = ([], []) :=
  (peer_name_resolution ["leaf01"] [] "upstream-isp-router" "leaf01" "Ethernet1"
    ⟨"upstream-isp-router", "Ethernet9"⟩ ([], [])).2.2.1 (by decide)

/-- C6: the symmetric two-device report under the virtualized template
yields exactly the single link entry with endpoints A:eth2 and B:eth1. -/
theorem two_device_scenario :
    (generate_links [⟨"A", none⟩, ⟨"B", none⟩] []
      [("A", [("Ethernet2", [⟨"B", "Ethernet1"⟩])]),
       ("B", [("Ethernet1", [⟨"A", "Ethernet2"⟩])])]).map endpoints
      = [["A:eth2", "B:eth1"]] := by decide

/-- C7: a record either of whose normalized interface names lacks the
"eth" marker is discarded, and every synthesized link's normalized
interface names both contain the marker. -/
theorem interface_marker_filter (devices : List Device) (unreachable names : List String)
    (links_data : LinksData) (l li : String) (ni : NeighborInfo)
    (acc : List (String × String) × List LinkEntry) :
    ((containsSub (map_interface node_template_name li) "eth" = false
        ∨ containsSub (map_interface node_template_name ni.port) "eth" = false) →
      processNeighbor names unreachable l li acc ni = acc)
    ∧ (∀ e ∈ generate_links devices unreachable links_data,
        containsSub e.localIf "eth" = true ∧ containsSub e.nbrIf "eth" = true) := by
  constructor
  · intro h
    unfold processNeighbor
    split
    · rfl
    · split
      · rfl
      · dsimp only
        split
        · rfl
        · rename_i hfilter
          exfalso
          rcases h with h | h <;> rw [h] at hfilter <;> simp at hfilter
  · intro e he
    unfold generate_links at he
    exact (synthesize_inv _ unreachable links_data).2.2.2 e he

/-- Witness for interface_marker_filter: a management interface lacking
the marker is discarded. -/
theorem interface_marker_filter_witness :
    processNeighbor ["B"] [] "A" "Management1" ([], []) ⟨"B", "Ethernet1"⟩ = ([], []) :=
  (interface_marker_filter [] [] ["B"] [] "A" "Management1" ⟨"B", "Ethernet1"⟩
    ([], [])).1 (Or.inl (by decide))

/-- C8 counterexample: destroy_containerlab catches both a missing
tool and a non-zero exit and returns normally, instead of re-raising
the error as the claim states for both operations. -/
theorem destroy_swallows_errors_counterexample :
    destroy_containerlab true (ToolOutcome.calledProcessError 1)
      = Except.ok (DestroyReport.reportedToolFailed 1)
    ∧ destroy_containerlab true ToolOutcome.fileNotFound
      = Except.ok DestroyReport.reportedMissingTool :=
  ⟨rfl, rfl⟩

/-- C8 amended: deploy surfaces the missing tool and a non-zero exit
as two distinct errors and re-raises both (fatal); destroy
distinguishes the same two conditions in its report but swallows them
and always returns normally. -/
theorem tooling_error_handling (c : Nat) (inspectRun : ToolOutcome)
    (file_exists : Bool) (run : ToolOutcome) :
    deploy_containerlab ToolOutcome.fileNotFound inspectRun
      = Except.error ToolingError.toolingMissing
    ∧ deploy_containerlab (ToolOutcome.calledProcessError c) inspectRun
      = Except.error (ToolingError.toolingFailed c)
    ∧ ToolingError.toolingMissing ≠ ToolingError.toolingFailed c
    ∧ (∃ r, destroy_containerlab file_exists run = Except.ok r)
    ∧ destroy_containerlab true ToolOutcome.fileNotFound
      ≠ destroy_containerlab true (ToolOutcome.calledProcessError c) := by
  refine ⟨rfl, rfl, by simp, ?_, by simp [destroy_containerlab]⟩
  unfold destroy_containerlab
  cases file_exists with
  | false => exact ⟨.skippedMissingFile, rfl⟩
  | true =>
    cases run with
    | success => exact ⟨.destroyed, rfl⟩
    | fileNotFound => exact ⟨.reportedMissingTool, rfl⟩
    | calledProcessError cc => exact ⟨.reportedToolFailed cc, rfl⟩

/-- C9: the topology file path the generator writes equals the path the
cleanup program computes for the same site name. -/
theorem cleanup_targets_generated_file (site_name : String) :
    cleanup_topology_file site_name = generator_topology_filepath site_name := rfl

theorem no_slash_replaceFuel : ∀ (fuel : Nat) (x : List Char), x.length ≤ fuel →
    isInfixL ['/'] (replaceFuel ['/'] ['_'] fuel x) = false := by
  intro fuel
  induction fuel with
  | zero =>
    intro x hx
    have hx0 : x = [] := List.length_eq_zero.mp (Nat.le_zero.mp hx)
    subst hx0
    rfl
  | succ n ih =>
    intro x hx
    cases x with
    | nil => rfl
    | cons c cs =>
      have hcs : cs.length ≤ n := by simp at hx; omega
      by_cases hc : c = '/'
      · subst hc
        simp [replaceFuel, List.isPrefixOf, isInfixL, ih cs hcs]
      · have hbeq : (('/' : Char) == c) = false := by simp [Ne.symm hc]
        simp [replaceFuel, List.isPrefixOf, isInfixL, hbeq, ih cs hcs]

theorem replaceEth_head (c : Char) (cs : List Char)
    (h : List.isPrefixOf "Ethernet".data (c :: cs) = true) :
    ∃ r, replaceAll "Ethernet".data "eth".data (c :: cs) = 'e' :: r := by
  unfold replaceAll
  simp only [List.length_cons, replaceFuel]
  rw [if_pos (by simp [h])]
  exact ⟨'t' :: 'h' :: replaceFuel "Ethernet".data "eth".data cs.length
    (List.drop "Ethernet".data.length (c :: cs)), rfl⟩

theorem replaceSlash_head (c : Char) (cs : List Char) (hc : c ≠ '/') :
    ∃ r, replaceAll "/".data "_".data (c :: cs) = c :: r := by
  unfold replaceAll
  simp only [List.length_cons, replaceFuel]
  rw [if_neg (by simp [List.isPrefixOf, Ne.symm hc])]
  exact ⟨replaceFuel "/".data "_".data cs.length cs, rfl⟩

theorem map_interface_not_ethernet (t s : String)
    (h1 : containsSub t "ceos" = true) (h2 : strStartsWith s "Ethernet" = true) :
    strStartsWith (map_interface t s) "Ethernet" = false := by
  unfold map_interface
  rw [if_pos (by rw [h1, h2]; rfl)]
  obtain ⟨c, cs, hs⟩ : ∃ c cs, s.data = c :: cs := by
    cases hd : s.data with
    | nil =>
      unfold strStartsWith at h2
      rw [hd] at h2
      exact absurd h2 (by decide)
    | cons c cs => exact ⟨c, cs, rfl⟩
  have hpre : List.isPrefixOf "Ethernet".data (c :: cs) = true := by
    unfold strStartsWith at h2
    rw [hs] at h2
    exact h2
  obtain ⟨r1, hr1⟩ := replaceEth_head c cs hpre
  have hd1 : (pyReplace s "Ethernet" "eth").data = 'e' :: r1 := by
    show replaceAll "Ethernet".data "eth".data s.data = 'e' :: r1
    rw [hs]
    exact hr1
  obtain ⟨r2, hr2⟩ := replaceSlash_head 'e' r1 (by decide)
  have hd2 : (pyReplace (pyReplace s "Ethernet" "eth") "/" "_").data = 'e' :: r2 := by
    show replaceAll "/".data "_".data (pyReplace s "Ethernet" "eth").data = 'e' :: r2
    rw [hd1]
    exact hr2
  unfold strStartsWith
  rw [hd2]
  rw [show "Ethernet".data = 'E' :: "thernet".data from rfl]
  simp [List.isPrefixOf]

theorem map_interface_passthrough (t s : String)
    (h : (containsSub t "ceos" && strStartsWith s "Ethernet") = false) :
    map_interface t s = s := by
  unfold map_interface
  rw [h]
  simp

/-- C10: map_interface is idempotent: normalizing an already
normalized interface name never changes it. -/
theorem map_interface_idempotent (t s : String) :
    map_interface t (map_interface t s) = map_interface t s := by
  cases hcond : (containsSub t "ceos" && strStartsWith s "Ethernet") with
  | false => simp only [map_interface_passthrough t s hcond]
  | true =>
    have hc : containsSub t "ceos" = true := ((Bool.and_eq_true _ _).mp hcond).1
    have hp : strStartsWith s "Ethernet" = true := ((Bool.and_eq_true _ _).mp hcond).2
    have hne := map_interface_not_ethernet t s hc hp
    exact map_interface_passthrough t (map_interface t s) (by rw [hne, Bool.and_false])

/-- C5 counterexample: the input interface name "eth1/1" does not
begin with the physical-port prefix, passes through map_interface
unchanged, survives the marker filter, and carries a slash into the
synthesized output, refuting the claimed no-path-separator invariant
for arbitrary input reports. -/
theorem slash_survives_counterexample :
    (generate_links [⟨"A", none⟩, ⟨"B", none⟩] []
        [("A", [("eth1/1", [⟨"B", "Ethernet1"⟩])])]).map LinkEntry.localIf = ["eth1/1"]
    ∧ containsSub "eth1/1" "/" = true :=
  ⟨by decide, by decide⟩

/-- C5 amended: under the virtualized template, an interface name
beginning with the physical-port prefix is rewritten with slashes
turned to underscores and its mapped form contains no slash; a name
not matching the template-and-prefix condition passes through
unchanged (and so may retain a slash). -/
theorem ethernet_mapped_slash_free (t s : String) :
    (containsSub t "ceos" = true → strStartsWith s "Ethernet" = true →
      containsSub (map_interface t s) "/" = false)
    ∧ ((containsSub t "ceos" && strStartsWith s "Ethernet") = false →
      map_interface t s = s) := by
  constructor
  · intro h1 h2
    unfold map_interface
    rw [if_pos (by rw [h1, h2]; rfl)]
    show isInfixL ['/'] (replaceFuel ['/'] ['_']
      (replaceAll "Ethernet".data "eth".data s.data).length
      (replaceAll "Ethernet".data "eth".data s.data)) = false
    exact no_slash_replaceFuel _ _ (le_refl _)
  · exact map_interface_passthrough t s

/-- Witness for ethernet_mapped_slash_free: Ethernet1/1 maps to a
slash-free identifier under the ceos template. -/
theorem ethernet_mapped_slash_free_witness :
    containsSub (map_interface "ceos-template" "Ethernet1/1") "/" = false :=
  (ethernet_mapped_slash_free "ceos-template" "Ethernet1/1").1 (by decide) (by decide)

/-- C3 counterexample: on the line "Serial number: AB:CD" the code
extracts the field between the first and second separator ("AB" via
parse_show_version), not the entire text after the first separator
("AB:CD" as the claim states). -/
theorem serial_extract_counterexample :
    parse_show_version "Serial number: AB:CD" = Except.ok ("AB".data, "UNKNOWN".data)
    ∧ spec_extract_after_first_sep "Serial number: AB:CD".data = some "AB:CD".data
    ∧ "AB".data ≠ "AB:CD".data :=
  ⟨rfl, by decide, by decide⟩

/-- C3 amended: for every identity-output line that contains the
separator character and whose label matches the serial-number or
system-address field case-insensitively, the value extracted is the
field between the first and second separator (the second colon-split
field), trimmed of surrounding whitespace, and the two values are
written as the SERIALNUMBER= and SYSTEMMACADDR= lines keyed by device
name. -/
theorem serial_extract_between_separators
    (sn mac v line : List Char)
    (hv : (splitOnChar ':' line).get? 1 = some v)
    (dev : Device) (ip : String) (st : PollState) (sdir out : String)
    (sn' mac' : List Char)
    (hm : dev.name ∉ st.unreachable)
    (hip : dev.primary_ip = some ip)
    (hparse : parse_show_version out = Except.ok (sn', mac')) :
    versionStep (Except.ok (sn, mac)) line
      = Except.ok ((if serialLabel line then stripChars v else sn),
                   (if macLabel line then stripChars v else mac))
    ∧ (get_device_info dev (Except.ok out) sdir st).files
      = (osPathJoin sdir (dev.name ++ ".txt"),
         "SERIALNUMBER=" ++ String.mk sn' ++ "\nSYSTEMMACADDR=" ++ String.mk mac' ++ "\n")
        :: st.files := by
  constructor
  · have hef : extractField line = some (stripChars v) := by
      unfold extractField
      cases hsp : splitOnChar ':' line with
      | nil => rw [hsp] at hv; simp at hv
      | cons p0 rest =>
        cases rest with
        | nil => rw [hsp] at hv; simp at hv
        | cons v1 rest2 =>
          rw [hsp] at hv
          simp at hv
          subst hv
          rfl
    unfold versionStep
    rw [hef]
    by_cases hs : serialLabel line <;> by_cases hmc : macLabel line <;> simp [hs, hmc]
  · unfold get_device_info
    rw [if_neg hm]
    split
    · rename_i hnone
      rw [hip] at hnone
      simp at hnone
    · split
      · rename_i herr
        simp at herr
      · rename_i fv ver hok
        injection hok with h
        subst h
        rw [hparse]

/-- Witness for serial_extract_between_separators on a concrete
identity-query output. -/
theorem serial_extract_between_separators_witness :
    versionStep (Except.ok ("UNKNOWN".data, "UNKNOWN".data)) "Serial number: SN1".data
      = Except.ok ((if serialLabel "Serial number: SN1".data
            then stripChars " SN1".data else "UNKNOWN".data),
          (if macLabel "Serial number: SN1".data
            then stripChars " SN1".data else "UNKNOWN".data))
    ∧ (get_device_info ⟨"sw1", some "10.0.0.2"⟩
        (Except.ok "Serial number: SN1\nSystem MAC address: aa.bb\n") "sn"
        ⟨[], []⟩).files
      = (osPathJoin "sn" ("sw1" ++ ".txt"),
         "SERIALNUMBER=" ++ String.mk "SN1".data ++ "\nSYSTEMMACADDR="
           ++ String.mk "aa.bb".data ++ "\n") :: (PollState.mk [] []).files :=
  serial_extract_between_separators "UNKNOWN".data "UNKNOWN".data " SN1".data
    "Serial number: SN1".data (by decide) ⟨"sw1", some "10.0.0.2"⟩ "10.0.0.2"
    ⟨[], []⟩ "sn" "Serial number: SN1\nSystem MAC address: aa.bb\n"
    "SN1".data "aa.bb".data (by decide) rfl rfl

/-- Witness for tooling_error_handling: a missing tool is a deploy
error while a failing destroy still returns normally. -/
theorem tooling_error_handling_witness :
    deploy_containerlab ToolOutcome.fileNotFound ToolOutcome.success
      = Except.error ToolingError.toolingMissing
    ∧ ∃ r, destroy_containerlab true (ToolOutcome.calledProcessError 2) = Except.ok r :=
  ⟨(tooling_error_handling 2 ToolOutcome.success true (ToolOutcome.calledProcessError 2)).1,
   (tooling_error_handling 2 ToolOutcome.success true
      (ToolOutcome.calledProcessError 2)).2.2.2.1⟩
